import Mathlib

/-!
# Verification of the flight-search app's normalization / fallback pipeline

A shallow embedding, in Lean 4, of the pure core of the flight-search web
application: the environment resolver (`src/utils/envConfig.ts`,
`src/utils/apiStatus.ts`), the retry executor (`src/utils/apiRetry.ts`), the
mock-fallback wrapper (`src/utils/withMockFallback.ts`), the health prober
(`src/utils/apiStatus.ts`), the flight normalizer
(`src/services/flightApi.ts`), the price-range derivation
(`src/utils/calculatePriceRange.ts`), the duration parser
(`src/utils/parseDuration.ts`) and the filter/sort engine
(`src/context/SearchContext.tsx`).

Modelling conventions used throughout:

* A JavaScript `number` is modelled as `ℚ`; where `NaN` is a reachable value
  the model uses `Option ℚ`, with `none` standing for `NaN`.  `Infinity`,
  hexadecimal literals and exponent notation are outside the fragment this
  program manipulates and are not modelled.
* A TypeScript optional field `x?: T` is modelled as `Option T`
  (`none` = the field is absent / `undefined`).
* The JavaScript truthiness used by `a || b` chains is modelled per type:
  a string is falsy exactly on `""`, a number on `0` and `NaN`, `undefined`
  and `null` are falsy, and objects/arrays are always truthy.
* Asynchronous functions that can reject are modelled as `Except`-valued
  pure functions; module-level mutable state (the health-check cache slot) is
  modelled by explicit state passing; `Date.now()` becomes an explicit
  parameter.
* `Array.prototype.sort(cmp)` (stable per the ECMAScript specification) is
  modelled as `List.insertionSort r` with `r a b := cmp a b ≤ 0`; stable
  insertion sort computes the unique stable sorted permutation whenever `cmp`
  is a total preorder comparator, which is the case for the comparators of
  this program.
-/

/-! ## JavaScript primitives -/

/-- Truthiness of a JavaScript string: falsy exactly on the empty string. -/
def jsTruthyStr (s : String) : Bool := s ≠ ""

/-- Drop leading and trailing whitespace from a character list. -/
def trimChars (cs : List Char) : List Char :=
  ((cs.dropWhile Char.isWhitespace).reverse.dropWhile Char.isWhitespace).reverse

/-- JavaScript `s.trim()` (structurally recursive, unlike `String.trim`, so
that concrete instances reduce inside the kernel). -/
def jsTrim (s : String) : String := ⟨trimChars s.data⟩

/-- Split a character list at every occurrence of a separator character. -/
def splitOnChar (sep : Char) : List Char → List (List Char)
  | [] => [[]]
  | c :: cs =>
    let r := splitOnChar sep cs
    if c = sep then [] :: r
    else
      match r with
      | [] => [[c]]
      | h :: t => (c :: h) :: t

/-- JavaScript `s.split(sep)` for a one-character separator. -/
def jsSplit (s : String) (sep : Char) : List String :=
  (splitOnChar sep s.data).map (fun cs => ⟨cs⟩)

/-- `a || b` where `a : string | undefined` and the result is used as a
string (so a final falsy value degrades to `b`). -/
def jsOrStr (a : Option String) (b : String) : String :=
  match a with
  | some s => if s = "" then b else s
  | none => b

/-- `a || b` where both sides are `string | undefined` and the overall value
may remain `undefined` (used for optional output fields such as
`aircraft`). -/
def jsOrStrOpt (a : Option String) (b : Option String) : Option String :=
  match a with
  | some s => if s = "" then b else some s
  | none => b

/-- Digits-to-number accumulator for the decimal parsers. -/
def digitsToNat (ds : List Char) : Nat :=
  ds.foldl (fun n c => n * 10 + (c.toNat - '0'.toNat)) 0

/-- Unsigned decimal literal (`123`, `123.45`, `1.`, `.5`) parsed to `ℚ`;
`none` when the characters are not such a literal. -/
def parseDecimalCore (cs : List Char) : Option ℚ :=
  let ip := cs.takeWhile Char.isDigit
  let r1 := cs.dropWhile Char.isDigit
  match r1 with
  | [] => if ip.isEmpty then none else some (digitsToNat ip : ℚ)
  | '.' :: r2 =>
    let fp := r2.takeWhile Char.isDigit
    let r3 := r2.dropWhile Char.isDigit
    if ¬ r3.isEmpty then none
    else if ip.isEmpty && fp.isEmpty then none
    else some ((digitsToNat ip : ℚ) + (digitsToNat fp : ℚ) / (10 ^ fp.length : ℚ))
  | _ => none

/-- Signed decimal literal parsed to `ℚ` (the whole character list must be
consumed, as in the JavaScript `Number` conversion). -/
def parseSignedDecimal (cs : List Char) : Option ℚ :=
  match cs with
  | '-' :: rest => (parseDecimalCore rest).map (fun q => -q)
  | '+' :: rest => parseDecimalCore rest
  | _ => parseDecimalCore cs

/-- JavaScript `Number(s)` on a string: whitespace-trimmed, the empty string
converts to `0`, otherwise the entire string must be a signed decimal
literal; `none` models `NaN`. -/
def jsNumber (s : String) : Option ℚ :=
  let t := trimChars s.data
  if t.isEmpty then some 0 else parseSignedDecimal t

/-- JavaScript `parseFloat(s)`: skips leading whitespace, then parses the
longest signed decimal prefix, ignoring trailing characters; `none` models
`NaN`.  Implemented by pre-truncating the character list at the end of the
numeric prefix and reusing the full-string parser. -/
def jsParseFloat (s : String) : Option ℚ :=
  let cs := trimChars s.data
  let body : List Char :=
    match cs with
    | '-' :: rest => '-' :: numericPrefix rest
    | '+' :: rest => '+' :: numericPrefix rest
    | _ => numericPrefix cs
  parseSignedDecimal body
where
  /-- Longest prefix of the shape `digits [. digits]`. -/
  numericPrefix (cs : List Char) : List Char :=
    let ip := cs.takeWhile Char.isDigit
    let r1 := cs.dropWhile Char.isDigit
    match r1 with
    | '.' :: r2 => ip ++ '.' :: r2.takeWhile Char.isDigit
    | _ => ip

/-- JavaScript `parseInt(s)` (radix 10): skips leading whitespace, then an
optional sign and the longest digit prefix; `none` models `NaN`. -/
def jsParseInt (s : String) : Option Int :=
  let cs := trimChars s.data
  match cs with
  | '-' :: rest => (digitsPrefix rest).map (fun n => -(n : Int))
  | '+' :: rest => (digitsPrefix rest).map (fun n => (n : Int))
  | _ => (digitsPrefix cs).map (fun n => (n : Int))
where
  digitsPrefix (cs : List Char) : Option Nat :=
    let ds := cs.takeWhile Char.isDigit
    if ds.isEmpty then none else some (digitsToNat ds)

/-! ## Environment Resolver (`src/utils/envConfig.ts`, `src/utils/apiStatus.ts`)

`RAPID_API_KEY = import.meta.env.VITE_RAPIDAPI_KEY || ''` is a build-time
string constant; it is threaded through the model as an explicit `key`
parameter. -/

/-- `isApiConfigured` (`src/utils/envConfig.ts`): `return !!RAPID_API_KEY`. -/
def isApiConfigured (key : String) : Bool := key ≠ ""

/-- `isApiKeyConfigured` (`src/utils/apiStatus.ts`):
`return !!RAPID_API_KEY && RAPID_API_KEY.trim() !== ''`. -/
def isApiKeyConfigured (key : String) : Bool := key ≠ "" && jsTrim key ≠ ""

/-! ## Price-range derivation (`src/utils/calculatePriceRange.ts`) -/

/-- The `{min, max}` record returned by `calculatePriceRange`. -/
structure PriceRange where
  min : ℚ
  max : ℚ
deriving DecidableEq, Repr

/-- `calculatePriceRange(flightPrices)`: keep strictly positive prices; on an
empty remainder return `{min: 0, max: 10000}`, otherwise round the least
price down and the greatest price up to the nearest 100
(`Math.min(...validPrices)` / `Math.max(...validPrices)` are modelled as
folds over the non-empty list). -/
def calculatePriceRange (flightPrices : List ℚ) : PriceRange :=
  let validPrices := flightPrices.filter (fun p => 0 < p)
  match validPrices with
  | [] => { min := 0, max := 10000 }
  | p :: rest =>
    let minPrice := rest.foldl min p
    let maxPrice := rest.foldl max p
    { min := max 0 ((⌊minPrice / 100⌋ * 100 : ℤ) : ℚ)
      max := ((⌈maxPrice / 100⌉ * 100 : ℤ) : ℚ) }

/-! ## Mock-Fallback Wrapper (`src/utils/withMockFallback.ts`) -/

/-- A JavaScript `Error` value as this program inspects it: the
`TypeError`-ness and `name` of the error, its `message`, and whether/what a
`status` property carries (`hasStatus = true, status = none` models a present
property holding `undefined`). -/
structure JsError where
  isTypeError : Bool := false
  name : String := "Error"
  message : String := ""
  hasStatus : Bool := false
  status : Option Nat := none
deriving DecidableEq, Repr

/-- `withMockFallback(apiCall, getMockData, context)`: `apiCall` is modelled
by its settled outcome, `getMockData` by its (pure) value, and the returned
`Nat` counts how many times `apiCall` was invoked.  The result is
`Except`-valued to make "never propagates an error" expressible. -/
def withMockFallback {α : Type} (key : String) (apiCall : Except JsError α)
    (getMockData : α) : Except JsError α × Nat :=
  if key = "" then
    -- API key not configured: return mock data immediately
    (.ok getMockData, 0)
  else
    match apiCall with
    | .ok result => (.ok result, 1)
    | .error e =>
      if e.name = "NoApiKeyError" then
        (.ok getMockData, 1)
      else
        -- for any other API error, fall back to mock data
        (.ok getMockData, 1)

/-! ## Retry Executor (`src/utils/apiRetry.ts`) -/

/-- `RetryConfig`, every field optional as in the source. -/
structure RetryConfig where
  maxRetries : Option Nat := none
  baseDelay : Option Nat := none
  maxDelay : Option Nat := none
  retryableStatusCodes : Option (List Nat) := none

/-- `DEFAULT_CONFIG.retryableStatusCodes`. -/
def defaultRetryableStatusCodes : List Nat := [500, 502, 503, 504]

/-- `haystack.includes(needle)` on strings, as a scan over character
lists. -/
def containsSubstrChars (needle : List Char) : List Char → Bool
  | [] => needle.isEmpty
  | c :: cs => needle.isPrefixOf (c :: cs) || containsSubstrChars needle cs

/-- `isRetryableError(error, retryableStatusCodes)`: fetch-related
`TypeError`s are always retryable; otherwise an error with a `status`
property is retryable iff the status is undefined or in the retryable list,
never for 400–403 and 429; an error without a status is assumed retryable. -/
def isRetryableError (e : JsError)
    (retryableStatusCodes : List Nat := defaultRetryableStatusCodes) : Bool :=
  if e.isTypeError && containsSubstrChars "fetch".toList e.message.toList then
    true
  else if e.hasStatus then
    match e.status with
    | none => true
    | some status =>
      if 400 ≤ status && status ≤ 403 then false
      else if status = 429 then false
      else retryableStatusCodes.contains status
  else
    true

/-- The `for (attempt = 0; attempt <= maxRetries; attempt++)` loop of
`apiRequestWithRetry`, with `left = maxRetries - attempt` as structural
fuel.  `requestFn` is modelled by its settled outcome per attempt; the
returned `Nat` counts invocations of `requestFn`.  The backoff delays
(`calculateDelay`, `setTimeout`) affect timing only, not the result or the
invocation count, and real-time waiting is not modelled. -/
def retryLoop {α : Type} (requestFn : Nat → Except JsError α)
    (retryableStatusCodes : List Nat) (attempt : Nat) :
    Nat → Except JsError α × Nat
  | 0 =>
    -- attempt = maxRetries: a failure breaks out and is rethrown
    (requestFn attempt, 1)
  | left + 1 =>
    match requestFn attempt with
    | .ok v => (.ok v, 1)
    | .error e =>
      if isRetryableError e retryableStatusCodes then
        let r := retryLoop requestFn retryableStatusCodes (attempt + 1) left
        (r.1, r.2 + 1)
      else
        (.error e, 1)

/-- `apiRequestWithRetry(requestFn, config)`: destructures the configuration
with defaults `maxRetries = 2`, `retryableStatusCodes = [500,502,503,504]`
and runs the retry loop from attempt 0. -/
def apiRequestWithRetry {α : Type} (requestFn : Nat → Except JsError α)
    (config : RetryConfig := {}) : Except JsError α × Nat :=
  let maxRetries := config.maxRetries.getD 2
  let retryableStatusCodes := config.retryableStatusCodes.getD defaultRetryableStatusCodes
  retryLoop requestFn retryableStatusCodes 0 maxRetries

/-! ## Health Prober (`src/utils/apiStatus.ts`)

The module-level mutable slot `cachedHealthCheck` is modelled by explicit
state passing: `checkApiHealth` receives the current slot contents and
returns the new contents alongside its result.  The network probe (`fetch`
of `/v1/flights/searchAirport?query=JFK` with a 5-second abort signal) is
modelled by its outcome, and `Date.now()` by the `now` parameter. -/

/-- `ApiConnectionStatus`. -/
inductive ApiConnectionStatus where
  | online
  | offline
  | mock
deriving DecidableEq, Repr

/-- `ApiHealthResult`. -/
structure ApiHealthResult where
  status : ApiConnectionStatus
  message : String
  timestamp : Nat
  usingMockData : Bool
  apiKeyConfigured : Bool
deriving DecidableEq, Repr

/-- `CACHE_DURATION = 5 * 60 * 1000` (5 minutes in milliseconds). -/
def CACHE_DURATION : Nat := 5 * 60 * 1000

/-- `isCacheValid(cached)`: `Date.now() - cached.timestamp < CACHE_DURATION`
(truncated `Nat` subtraction agrees with the JavaScript comparison: a
timestamp in the future also yields a valid cache on both sides). -/
def isCacheValid (now : Nat) (cached : ApiHealthResult) : Bool :=
  now - cached.timestamp < CACHE_DURATION

/-- Outcome of the single health-probe `fetch`: a 2xx response
(`response.ok`), a non-2xx response with its HTTP status, or a thrown
network error / abort-timeout. -/
inductive ProbeOutcome where
  | success
  | httpError (status : Nat)
  | networkError
deriving DecidableEq, Repr

/-- Result of one `checkApiHealth` call: the returned value, the contents of
the `cachedHealthCheck` slot after the call, and whether the network probe
was issued. -/
structure HealthCheckOutcome where
  result : ApiHealthResult
  cache : Option ApiHealthResult
  probed : Bool
deriving DecidableEq, Repr

/-- The body of `checkApiHealth` past the cache short-circuit: the
no-API-key branch, then the probe with its four outcome branches.  Note that
the 429 branch returns without writing `cachedHealthCheck`, so the slot
keeps its previous contents. -/
def checkApiHealthUncached (key : String) (probe : ProbeOutcome) (now : Nat)
    (cache : Option ApiHealthResult) : HealthCheckOutcome :=
  if key = "" || jsTrim key = "" then
    let result : ApiHealthResult :=
      { status := .mock
        message := "API key not configured - using mock data"
        timestamp := now
        usingMockData := true
        apiKeyConfigured := false }
    { result := result, cache := some result, probed := false }
  else
    match probe with
    | .success =>
      let result : ApiHealthResult :=
        { status := .online
          message := "Connected to RapidAPI"
          timestamp := now
          usingMockData := false
          apiKeyConfigured := true }
      { result := result, cache := some result, probed := true }
    | .httpError status =>
      if status = 429 then
        -- rate limit: do not cache, return offline status
        { result :=
            { status := .offline
              message := "Rate limit exceeded - using mock data"
              timestamp := now
              usingMockData := true
              apiKeyConfigured := true }
          cache := cache
          probed := true }
      else
        let result : ApiHealthResult :=
          { status := .online
            message := s!"API returned {status} - mock data fallback active"
            timestamp := now
            usingMockData := true
            apiKeyConfigured := true }
        { result := result, cache := some result, probed := true }
    | .networkError =>
      let result : ApiHealthResult :=
        { status := .mock
          message := "API unavailable - using mock data"
          timestamp := now
          usingMockData := true
          apiKeyConfigured := true }
      { result := result, cache := some result, probed := true }

/-- `checkApiHealth(skipCache = false)`: return the cached result unchanged
when `!skipCache && cachedHealthCheck && isCacheValid(cachedHealthCheck)`,
otherwise run the uncached body. -/
def checkApiHealth (key : String) (probe : ProbeOutcome) (now : Nat)
    (cache : Option ApiHealthResult) (skipCache : Bool := false) :
    HealthCheckOutcome :=
  match cache with
  | some cached =>
    if !skipCache && isCacheValid now cached then
      { result := cached, cache := cache, probed := false }
    else
      checkApiHealthUncached key probe now cache
  | none => checkApiHealthUncached key probe now cache

/-! ## Flight Normalizer: response envelope (`normalizeFlightResponse`,
`src/services/flightApi.ts`)

The `unknown` response value is embedded by its discriminating shape: the
function only ever inspects whether the response is an array, whether it is
an object owning a `data` key, and — for that `data` value — whether it is
an array or an object with array-valued `data` / `flights` properties. -/

/-- The value found under the `data` key of an envelope object. -/
inductive EnvelopeData (α : Type) where
  /-- `data` is `null`, `undefined` or a primitive (fails the
  `typeof rawData === 'object'` guard). -/
  | nullOrPrim
  /-- `data` is itself an array of flights. -/
  | arrayVal (flights : List α)
  /-- `data` is a non-array object, with optional array-valued `data` and
  `flights` properties. -/
  | objectVal (dataArr : Option (List α)) (flightsArr : Option (List α))
deriving DecidableEq, Repr

/-- A flight-search API response, by shape. -/
inductive FlightResponse (α : Type) where
  /-- the response is a direct array of flights -/
  | directArray (flights : List α)
  /-- the response is a non-array object with a `data` key -/
  | objWithData (data : EnvelopeData α)
  /-- the response is a non-array object without a `data` key -/
  | objNoData
  /-- the response is not an object (`null`, `undefined`, a primitive) -/
  | nonObject
deriving DecidableEq, Repr

/-- `normalizeFlightResponse(response)`: direct array, then
`data.data` / `data.flights`, then the fallback `data`-is-an-array case;
every other shape yields the empty array. -/
def normalizeFlightResponse {α : Type} : FlightResponse α → List α
  | .directArray flights => flights
  | .objWithData rawData =>
    match rawData with
    | .nullOrPrim => []
    | .arrayVal flights =>
      -- an array passes `typeof rawData === 'object'`; its `data` and
      -- `flights` properties are undefined, so the `Array.isArray(rawData)`
      -- fallback applies
      flights
    | .objectVal dataArr flightsArr =>
      match dataArr with
      | some flights => flights
      | none =>
        match flightsArr with
        | some flights => flights
        | none => []
  | .objNoData => []
  | .nonObject => []

/-! ## Flight Normalizer: single object (`normalizeFlightObject`,
`src/services/flightApi.ts`)

`RawFlightData` is `src/types/api.ts`'s interface of the same name; every
top-level field is read by `normalizeFlightObject` and every one is
embedded.  The `number | string`-typed price fields are embedded as
`JsPriceVal`, which also covers a `NaN` number. -/

/-- A `{name?, code?}` object (the `carrier` field and segment `airline`). -/
structure NameCode where
  name : Option String := none
  code : Option String := none
deriving DecidableEq, Repr

/-- A `{code?, name?}` segment endpoint (`origin` / `destination`). -/
structure CodeName where
  code : Option String := none
  name : Option String := none
deriving DecidableEq, Repr

/-- A `{time?, airport?, date?}` object (top-level `departure`/`arrival`). -/
structure TimeAirportDate where
  time : Option String := none
  airport : Option String := none
  date : Option String := none
deriving DecidableEq, Repr

/-- A `{time?, airport?}` object (segment `departure`/`arrival`). -/
structure TimeAirport where
  time : Option String := none
  airport : Option String := none
deriving DecidableEq, Repr

/-- One entry of the raw `segments` array. -/
structure RawSegment where
  origin : Option CodeName := none
  destination : Option CodeName := none
  departure : Option TimeAirport := none
  arrival : Option TimeAirport := none
  airline : Option NameCode := none
deriving DecidableEq, Repr

/-- The raw `outbound` object. -/
structure Outbound where
  departureTime : Option String := none
  arrivalTime : Option String := none
deriving DecidableEq, Repr

/-- The raw `journey` object. -/
structure Journey where
  duration : Option String := none
deriving DecidableEq, Repr

/-- A `{carryOn?, checked?}` baggage object. -/
structure BaggageInfo where
  carryOn : Option Bool := none
  checked : Option Int := none
deriving DecidableEq, Repr

/-- The raw `baggageAllowance` object. -/
structure BaggageAllowance where
  checked : Option Int := none
deriving DecidableEq, Repr

/-- One `{airport, duration}` layover entry. -/
structure LayoverInfo where
  airport : String
  duration : String
deriving DecidableEq, Repr

/-- A JavaScript value of TypeScript type `number | string`:
a finite number, the number `NaN`, or a string. -/
inductive JsPriceVal where
  | num (q : ℚ)
  | nan
  | str (s : String)
deriving DecidableEq, Repr

/-- Truthiness of a `number | string` value: `0`, `NaN` and `""` are
falsy. -/
def jsPriceTruthy : JsPriceVal → Bool
  | .num q => q ≠ 0
  | .nan => false
  | .str s => s ≠ ""

/-- `a || b` over `number | string | undefined` values. -/
def jsOrPrice (a : Option JsPriceVal) (b : JsPriceVal) : JsPriceVal :=
  match a with
  | some v => if jsPriceTruthy v then v else b
  | none => b

/-- `a || b` over `number | undefined` values used as numbers
(`checkedBags || … || 0`). -/
def jsOrIntD (a : Option Int) (b : Int) : Int :=
  match a with
  | some n => if n = 0 then b else n
  | none => b

/-- `parseFloat(String(v))` for a `number | string` value: stringifying a
finite number and re-parsing it is the identity (this program's numbers are
plain decimals, so no exponent notation arises), `String(NaN) = "NaN"`
re-parses to `NaN`, and a string is parsed directly. -/
def jsParseFloatOfVal : JsPriceVal → Option ℚ
  | .num q => some q
  | .nan => none
  | .str s => jsParseFloat s

/-- `RawFlightData` (`src/types/api.ts`). -/
structure RawFlightData where
  id : Option String := none
  legId : Option String := none
  itineraryId : Option String := none
  airline : Option String := none
  carrier : Option NameCode := none
  carriers : Option (List String) := none
  marketingCarrier : Option String := none
  departureTime : Option String := none
  arrivalTime : Option String := none
  departure : Option TimeAirportDate := none
  arrival : Option TimeAirportDate := none
  outbound : Option Outbound := none
  departureAirport : Option String := none
  arrivalAirport : Option String := none
  origin : Option String := none
  destination : Option String := none
  segments : Option (List RawSegment) := none
  duration : Option String := none
  totalDuration : Option String := none
  time : Option String := none
  journey : Option Journey := none
  price : Option JsPriceVal := none
  amount : Option JsPriceVal := none
  total : Option JsPriceVal := none
  fare : Option JsPriceVal := none
  stops : Option Int := none
  stopsCount : Option Int := none
  best : Option Bool := none
  recommended : Option Bool := none
  isBest : Option Bool := none
  aircraft : Option String := none
  equipment : Option String := none
  aircraftType : Option String := none
  flightNumber : Option String := none
  number : Option String := none
  flightNo : Option String := none
  cabinClass : Option String := none
  carryOn : Option Bool := none
  checkedBags : Option Int := none
  baggage : Option BaggageInfo := none
  baggageAllowance : Option BaggageAllowance := none
  layover : Option (List LayoverInfo) := none
  layovers : Option (List LayoverInfo) := none
deriving DecidableEq, Repr

/-- The `options` argument of `normalizeFlightObject`. -/
structure NormalizeOptions where
  index : Option Nat := none
  defaultFrom : Option String := none
  defaultTo : Option String := none
  originSkyId : Option String := none
  destinationSkyId : Option String := none
  departureDate : Option String := none
  returnDate : Option String := none
  cabinClass : Option String := none
deriving DecidableEq, Repr

/-- The normalized `Flight` record as `normalizeFlightObject` actually
produces it: `price` is `Option ℚ` because the `parseFloat` coercion can
yield `NaN`, and `stops` is `Int` because a raw `stops` value passes through
unchecked. -/
structure NormalizedFlight where
  id : String
  airline : String
  departureTime : String
  arrivalTime : String
  departureAirport : String
  arrivalAirport : String
  duration : String
  stops : Int
  price : Option ℚ
  best : Bool
  aircraft : Option String
  flightNumber : Option String
  cabinClass : String
  baggage : BaggageInfo
  layover : Option (List LayoverInfo)
  originSkyId : Option String
  destinationSkyId : Option String
  departureDate : Option String
  returnDate : Option String
deriving DecidableEq, Repr

/-- The price fallback chain
`flightData.price || flightData.amount || flightData.total || flightData.fare || 0`. -/
def selectPriceVal (flightData : RawFlightData) : JsPriceVal :=
  jsOrPrice flightData.price (jsOrPrice flightData.amount
    (jsOrPrice flightData.total (jsOrPrice flightData.fare (.num 0))))

/-- JavaScript truncation toward zero (the integer part used by `%`). -/
def ratTrunc (q : ℚ) : ℤ := if q < 0 then ⌈q⌉ else ⌊q⌋

/-- JavaScript `a % b` on (finite, `b ≠ 0`) numbers: the remainder takes the
sign of the dividend. -/
def jsRem (a b : ℚ) : ℚ := a - b * (ratTrunc (a / b) : ℚ)

/-- `String(q)` for the numbers this program renders: integers print
exactly as in JavaScript; non-integral rationals (which arise only from
fractional clock components that no claim exercises) are rendered as
`num/den` as an explicitly approximate stand-in. -/
def ratToJsString (q : ℚ) : String :=
  if q.den = 1 then toString q.num else toString q

/-- The duration back-fill computation of `normalizeFlightObject`:
`split(':').map(Number)` on both clock strings, destructured into
hour/minute (a missing component is `undefined`, making the arithmetic
`NaN`), minutes difference wrapped by +24h when negative, rendered as
`"{h}h {m}m"`.  When any component is `NaN` the JavaScript arithmetic and
`Math.floor`/`%` propagate `NaN` and the rendered string is `"NaNh NaNm"`
(the `try`/`catch` in the source is dead code: nothing in the body
throws). -/
def formatBackfillDuration (dep arr : String) : String :=
  let depParts := (jsSplit dep ':').map jsNumber
  let arrParts := (jsSplit arr ':').map jsNumber
  let part := fun (l : List (Option ℚ)) (i : Nat) => (l.get? i).getD none
  match part depParts 0, part depParts 1, part arrParts 0, part arrParts 1 with
  | some depHour, some depMin, some arrHour, some arrMin =>
    let depMinutes := depHour * 60 + depMin
    let arrMinutes := arrHour * 60 + arrMin
    let durationMinutes := arrMinutes - depMinutes
    let durationMinutes :=
      if durationMinutes < 0 then durationMinutes + 24 * 60 else durationMinutes
    let hours : ℤ := ⌊durationMinutes / 60⌋
    let minutes : ℚ := jsRem durationMinutes 60
    s!"{hours}h {ratToJsString minutes}m"
  | _, _, _, _ => "NaNh NaNm"

/-- The `departureTime` fallback chain of `normalizeFlightObject`. -/
def resolvedDepartureTime (flightData : RawFlightData) : String :=
  jsOrStr flightData.departureTime
    (jsOrStr (flightData.departure.bind (fun d => d.time))
      (jsOrStr (((flightData.segments.bind List.head?).bind
          (fun s => s.departure)).bind (fun d => d.time))
        (jsOrStr (flightData.outbound.bind (fun o => o.departureTime)) "")))

/-- The `arrivalTime` fallback chain of `normalizeFlightObject`. -/
def resolvedArrivalTime (flightData : RawFlightData) : String :=
  jsOrStr flightData.arrivalTime
    (jsOrStr (flightData.arrival.bind (fun a => a.time))
      (jsOrStr (((flightData.segments.bind List.getLast?).bind
          (fun s => s.arrival)).bind (fun a => a.time))
        (jsOrStr (flightData.outbound.bind (fun o => o.arrivalTime)) "")))

/-- The `duration` fallback chain of `normalizeFlightObject`, before
back-filling. -/
def resolvedRawDuration (flightData : RawFlightData) : String :=
  jsOrStr flightData.duration
    (jsOrStr flightData.totalDuration
      (jsOrStr (flightData.journey.bind (fun j => j.duration))
        (jsOrStr flightData.time "")))

/-- The final `duration` of `normalizeFlightObject`: calculate it from the
clock times when not provided but both times are available. -/
def resolvedDuration (flightData : RawFlightData) : String :=
  let duration := resolvedRawDuration flightData
  if duration = "" && resolvedDepartureTime flightData ≠ "" &&
      resolvedArrivalTime flightData ≠ "" then
    formatBackfillDuration (resolvedDepartureTime flightData)
      (resolvedArrivalTime flightData)
  else duration

/-- `normalizeFlightObject(flightData, options)`; `Date.now()` is the `now`
parameter. -/
def normalizeFlightObject (flightData : RawFlightData)
    (options : NormalizeOptions := {}) (now : Nat := 0) : NormalizedFlight :=
  let index := options.index.getD 0
  let departureTime := resolvedDepartureTime flightData
  let arrivalTime := resolvedArrivalTime flightData
  let duration := resolvedDuration flightData
  { id :=
      jsOrStr flightData.id
        (jsOrStr flightData.legId
          (jsOrStr flightData.itineraryId s!"flight-{index}-{now}"))
    airline :=
      jsOrStr flightData.airline
        (jsOrStr (flightData.carrier.bind (fun c => c.name))
          (jsOrStr ((flightData.carriers.map (String.intercalate ", ")))
            (jsOrStr flightData.marketingCarrier "Unknown Airline")))
    departureTime := departureTime
    arrivalTime := arrivalTime
    departureAirport :=
      jsOrStr flightData.departureAirport
        (jsOrStr (flightData.departure.bind (fun d => d.airport))
          (jsOrStr flightData.origin
            (jsOrStr (((flightData.segments.bind List.head?).bind
                (fun s => s.origin)).bind (fun o => o.code))
              (jsOrStr options.defaultFrom ""))))
    arrivalAirport :=
      jsOrStr flightData.arrivalAirport
        (jsOrStr (flightData.arrival.bind (fun a => a.airport))
          (jsOrStr flightData.destination
            (jsOrStr (((flightData.segments.bind List.getLast?).bind
                (fun s => s.destination)).bind (fun d => d.code))
              (jsOrStr options.defaultTo ""))))
    duration := duration
    stops :=
      -- `stops ?? (segments ? Math.max(0, segments.length - 1) : 0) ?? stopsCount ?? 0`;
      -- the conditional operand is never nullish, so the
      -- `?? stopsCount ?? 0` tail is unreachable
      match flightData.stops with
      | some s => s
      | none =>
        match flightData.segments with
        | some segments => max 0 ((segments.length : Int) - 1)
        | none => 0
    price := jsParseFloatOfVal (selectPriceVal flightData)
    best :=
      flightData.best.getD false || flightData.recommended.getD false ||
        flightData.isBest.getD false
    aircraft :=
      jsOrStrOpt flightData.aircraft
        (jsOrStrOpt flightData.equipment flightData.aircraftType)
    flightNumber :=
      jsOrStrOpt flightData.flightNumber
        (jsOrStrOpt flightData.number flightData.flightNo)
    cabinClass :=
      jsOrStr flightData.cabinClass (jsOrStr options.cabinClass "economy")
    baggage :=
      match flightData.baggage with
      | some b => b
      | none =>
        { carryOn := some (flightData.carryOn.getD true)
          checked := some (jsOrIntD flightData.checkedBags
            (jsOrIntD (flightData.baggageAllowance.bind
              (fun b => b.checked)) 0)) }
    layover :=
      match flightData.layover with
      | some l => some l
      | none => flightData.layovers
    originSkyId := options.originSkyId
    destinationSkyId := options.destinationSkyId
    departureDate := options.departureDate
    returnDate := options.returnDate }

/-! ## Duration parser (`src/utils/parseDuration.ts`) -/

/-- Attempt of the regex `/(\d+)h\s*(\d+)m?/` at one start position:
one-or-more digits, `h`, optional whitespace, one-or-more digits (the
optional `m` constrains nothing).  Maximal-munch digit runs coincide with
the backtracking semantics here because each `\d+` is followed by a
non-digit requirement. -/
def durationMatchAt (cs : List Char) : Option (Nat × Nat) :=
  let d1 := cs.takeWhile Char.isDigit
  let r1 := cs.dropWhile Char.isDigit
  if d1.isEmpty then none
  else
    match r1 with
    | 'h' :: r2 =>
      let r3 := r2.dropWhile Char.isWhitespace
      let d2 := r3.takeWhile Char.isDigit
      if d2.isEmpty then none else some (digitsToNat d1, digitsToNat d2)
    | _ => none

/-- Leftmost match of the duration regex. -/
def durationScan : List Char → Option (Nat × Nat)
  | [] => none
  | c :: cs =>
    match durationMatchAt (c :: cs) with
    | some r => some r
    | none => durationScan cs

/-- `parseDuration(duration)`: minutes from the first `"...h ...m"` match;
`0` when the pattern does not occur (`parseInt(match[2] || '0')` never takes
the `'0'` branch on a successful match, since the second group is
one-or-more digits). -/
def parseDuration (duration : String) : Nat :=
  match durationScan duration.toList with
  | some (h, m) => h * 60 + m
  | none => 0

/-! ## Filter/Sort Engine (`getFilteredFlights`,
`src/context/SearchContext.tsx`)

`Flight` here is the data-model record of `src/types/flight.ts` over the §3
invariant domain (`price` a finite number, `stops ≥ 0`); fields the engine
never reads (`aircraft`, `baggage`, …) are omitted, and the optional
`best?: boolean` is a `Bool` because the engine only uses its
truthiness. -/

/-- A normalized flight as the Filter/Sort Engine consumes it. -/
structure Flight where
  id : String := ""
  airline : String := ""
  departureTime : String := ""
  arrivalTime : String := ""
  departureAirport : String := ""
  arrivalAirport : String := ""
  duration : String := ""
  stops : Nat := 0
  price : ℚ := 0
  best : Bool := false
deriving DecidableEq, Repr

/-- `FlightFilters` (`src/types/flight.ts`). -/
structure FlightFilters where
  priceRange : PriceRange
  stops : List Nat
  airlines : List String
  departureTimes : List String
  arrivalTimes : List String
  duration : Nat
deriving DecidableEq, Repr

/-- `defaultFilters` (`src/context/SearchContext.tsx`). -/
def defaultFilters : FlightFilters :=
  { priceRange := { min := 0, max := 10000 }
    stops := []
    airlines := []
    departureTimes := []
    arrivalTimes := []
    duration := 0 }

/-- `SortOption`. -/
inductive SortOption where
  | best
  | cheapest
  | fastest
deriving DecidableEq, Repr

/-- One named time-bucket test of the departure/arrival time filters. -/
def hourInBucket (timeRange : String) (hour : Int) : Bool :=
  if timeRange = "morning" then 6 ≤ hour && hour < 12
  else if timeRange = "afternoon" then 12 ≤ hour && hour < 18
  else if timeRange = "evening" then 18 ≤ hour && hour < 24
  else if timeRange = "night" then 0 ≤ hour && hour < 6
  else false

/-- `parseInt(time.split(':')[0])` followed by
`timeRanges.some(bucket test)`; a `NaN` hour fails every bucket
comparison. -/
def timeFilterMatches (timeRanges : List String) (timeStr : String) : Bool :=
  match jsParseInt ((jsSplit timeStr ':').headD "") with
  | none => false
  | some hour => timeRanges.any (fun tr => hourInBucket tr hour)

/-- The five sequential `filter` passes of `getFilteredFlights` (price
range, stops, airlines, departure-time buckets, arrival-time buckets,
duration cap), before sorting. -/
def applyFilters (flights : List Flight) (filters : FlightFilters) :
    List Flight :=
  let f1 := flights.filter fun flight =>
    decide (filters.priceRange.min ≤ flight.price) &&
      decide (flight.price ≤ filters.priceRange.max)
  let f2 :=
    if filters.stops.length > 0 then
      f1.filter fun flight => filters.stops.contains flight.stops
    else f1
  let f3 :=
    if filters.airlines.length > 0 then
      f2.filter fun flight => filters.airlines.contains flight.airline
    else f2
  let f4 :=
    if filters.departureTimes.length > 0 then
      f3.filter fun flight =>
        timeFilterMatches filters.departureTimes flight.departureTime
    else f3
  let f5 :=
    if filters.arrivalTimes.length > 0 then
      f4.filter fun flight =>
        timeFilterMatches filters.arrivalTimes flight.arrivalTime
    else f4
  if filters.duration > 0 then
    f5.filter fun flight => parseDuration flight.duration ≤ filters.duration
  else f5

/-- The `'cheapest'` comparator `(a, b) => a.price - b.price`. -/
def cheapestCmp (a b : Flight) : ℚ := a.price - b.price

/-- The `'fastest'` comparator
`(a, b) => parseDuration(a.duration) - parseDuration(b.duration)`. -/
def fastestCmp (a b : Flight) : ℚ :=
  (parseDuration a.duration : ℚ) - (parseDuration b.duration : ℚ)

/-- The `'best'` comparator: best-flagged flights first, then non-stop
before 1+ stops, then ascending price. -/
def bestCmp (a b : Flight) : ℚ :=
  if a.best && !b.best then -1
  else if !a.best && b.best then 1
  else if a.stops = 0 && b.stops > 0 then -1
  else if a.stops > 0 && b.stops = 0 then 1
  else a.price - b.price

/-- "`a` may precede `b`" for a comparator: `cmp(a, b) <= 0`. -/
def cmpLe (cmp : Flight → Flight → ℚ) (a b : Flight) : Prop := cmp a b ≤ 0

instance (cmp : Flight → Flight → ℚ) : DecidableRel (cmpLe cmp) := fun a b =>
  inferInstanceAs (Decidable (cmp a b ≤ 0))

/-- `getFilteredFlights()`: empty short-circuit, the filter passes, then the
stable sort by the comparator the sort option selects. -/
def getFilteredFlights (flights : List Flight) (filters : FlightFilters)
    (sortOption : SortOption) : List Flight :=
  if flights.length = 0 then []
  else
    let filtered := applyFilters flights filters
    match sortOption with
    | .cheapest => filtered.insertionSort (cmpLe cheapestCmp)
    | .fastest => filtered.insertionSort (cmpLe fastestCmp)
    | .best => filtered.insertionSort (cmpLe bestCmp)

/-! # Claims -/

/-! ## C6 — the environment resolver's configured predicate -/

/-- C6 counterexample: for the whitespace-only key `" "`, `isApiConfigured`
returns `true` although the key is empty after trimming, refuting the claim
that `isApiConfigured` returns true iff the key is non-empty after
trimming whitespace. -/
theorem claim6_isApiConfigured_counterexample :
    isApiConfigured " " = true ∧ jsTrim " " = "" ∧ isApiKeyConfigured " " = false := by
  decide

/-- C6 (amended): `isApiConfigured` returns true iff the raw key string is
non-empty (no trimming, so a whitespace-only key yields `true`); the
companion predicate `isApiKeyConfigured` is the one that returns true iff
the key is non-empty after trimming whitespace. -/
theorem claim6_isApiConfigured_amended (key : String) :
    (isApiConfigured key = true ↔ key ≠ "") ∧
    (isApiKeyConfigured key = true ↔ jsTrim key ≠ "") := by
  refine ⟨by simp [isApiConfigured], ?_⟩
  unfold isApiKeyConfigured
  constructor
  · intro h
    simpa using (Bool.and_eq_true _ _).mp h |>.2
  · intro h
    have hk : key ≠ "" := by
      intro hkey
      exact h (by rw [hkey]; rfl)
    simp [hk, h]

/-- C6 witness: the amended characterization evaluated at a concrete
configured key and at the whitespace-only key. -/
theorem claim6_isApiConfigured_amended_witness :
    ((isApiConfigured "rapid-key" = true ↔ "rapid-key" ≠ "") ∧
      (isApiKeyConfigured "rapid-key" = true ↔ jsTrim "rapid-key" ≠ "")) ∧
    ((isApiConfigured " " = true ↔ " " ≠ "") ∧
      (isApiKeyConfigured " " = true ↔ jsTrim " " ≠ "")) :=
  ⟨claim6_isApiConfigured_amended "rapid-key", claim6_isApiConfigured_amended " "⟩

/-! ## C3 — the mock-fallback wrapper never propagates errors -/

/-- C3: `withMockFallback` never returns an error outcome; with no API key
configured it returns the mock data without invoking `apiCall` (invocation
count 0), and whenever `apiCall` rejects — with the sentinel
`NoApiKeyError` or any other error — it returns the mock data unchanged. -/
theorem claim3_withMockFallback_never_throws {α : Type} (key : String)
    (apiCall : Except JsError α) (getMockData : α) :
    (∃ v, (withMockFallback key apiCall getMockData).1 = .ok v) ∧
    (key = "" → withMockFallback key apiCall getMockData = (.ok getMockData, 0)) ∧
    (∀ e, apiCall = .error e →
      (withMockFallback key apiCall getMockData).1 = .ok getMockData) := by
  by_cases hk : key = "" <;> cases apiCall <;> simp [withMockFallback, hk]

/-- C3 witness: the wrapper evaluated with an unconfigured key, and with a
configured key whose call rejects. -/
theorem claim3_withMockFallback_never_throws_witness :
    withMockFallback "" (.error { name := "NoApiKeyError" } : Except JsError Nat) 7 =
      (.ok 7, 0) ∧
    (withMockFallback "rapid-key" (.error {} : Except JsError Nat) 7).1 = .ok 7 :=
  ⟨(claim3_withMockFallback_never_throws "" _ 7).2.1 rfl,
    (claim3_withMockFallback_never_throws "rapid-key" _ 7).2.2 {} rfl⟩

/-! ## C7 — the response envelope normalizer -/

/-- C7 counterexample: a response of shape `{data: [...]}` — the `data`
value itself an array, which is neither a direct array nor a
`{data: {data: [...]}}` / `{data: {flights: [...]}}` envelope — returns the
contained array rather than the empty array the claim requires for shapes
outside the two it lists. -/
theorem claim7_normalizeFlightResponse_counterexample :
    normalizeFlightResponse (.objWithData (.arrayVal [({} : RawFlightData)])) =
      [({} : RawFlightData)] ∧
    normalizeFlightResponse (.objWithData (.arrayVal [({} : RawFlightData)])) ≠
      ([] : List RawFlightData) := by
  constructor
  · rfl
  · intro h
    have : ([({} : RawFlightData)] : List RawFlightData).length = 0 := by
      rw [show [({} : RawFlightData)] =
          normalizeFlightResponse (.objWithData (.arrayVal [({} : RawFlightData)])) from rfl, h]
      rfl
    simp at this

/-- C7 (amended): `normalizeFlightResponse` returns the contained array for
a direct array, for `{data: {data: [...]}}` (which wins over a sibling
`flights` array), for `{data: {flights: [...]}}`, and also for the third
envelope shape `{data: [...]}`; every input matching none of these four
shapes yields the empty array. -/
theorem claim7_normalizeFlightResponse_amended {α : Type} :
    (∀ flights : List α, normalizeFlightResponse (.directArray flights) = flights) ∧
    (∀ (flights : List α) other,
      normalizeFlightResponse (.objWithData (.objectVal (some flights) other)) = flights) ∧
    (∀ flights : List α,
      normalizeFlightResponse (.objWithData (.objectVal none (some flights))) = flights) ∧
    (∀ flights : List α,
      normalizeFlightResponse (.objWithData (.arrayVal flights)) = flights) ∧
    normalizeFlightResponse (.objWithData (.objectVal none none)) = ([] : List α) ∧
    normalizeFlightResponse (.objWithData .nullOrPrim) = ([] : List α) ∧
    normalizeFlightResponse .objNoData = ([] : List α) ∧
    normalizeFlightResponse (.nonObject : FlightResponse α) = [] :=
  ⟨fun _ => rfl, fun _ _ => rfl, fun _ => rfl, fun _ => rfl, rfl, rfl, rfl, rfl⟩

/-! ## C2 — the retry executor's attempt counts -/

/-- A fetch-related `TypeError` carrying `status = 429`: an `Error` carrying
status 429 that `isRetryableError` nevertheless declares retryable, because
the fetch-`TypeError` network test precedes the status test. -/
def fetchRateLimitError : JsError :=
  { isTypeError := true
    message := "Failed to fetch"
    hasStatus := true
    status := some 429 }

/-- C2 counterexample: an operation that always rejects with the
fetch-`TypeError` carrying `status = 429` is invoked `maxRetries + 1 = 3`
times by `apiRequestWithRetry` under the default configuration, not exactly
once as the claim requires of every operation that always rejects with an
`Error` carrying `status = 429`. -/
theorem claim2_retry_429_counterexample :
    fetchRateLimitError.hasStatus = true ∧
    fetchRateLimitError.status = some 429 ∧
    (apiRequestWithRetry
      (fun _ => (.error fetchRateLimitError : Except JsError Unit)) {}).2 = 3 := by
  decide

/-- C2 (amended): under the default configuration, an operation that always
rejects with an `Error` carrying `status = 429` that is not a fetch-related
`TypeError` is invoked exactly once before the error is rethrown, and one
that always rejects with an `Error` carrying `status = 503` is invoked
exactly `maxRetries + 1 = 3` times before the error is rethrown. -/
theorem claim2_retry_counts_amended {α : Type} (e : JsError)
    (operation : Nat → Except JsError α)
    (hop : ∀ n, operation n = .error e) (hstat : e.hasStatus = true) :
    (e.status = some 429 →
      (e.isTypeError && containsSubstrChars "fetch".toList e.message.toList) = false →
      apiRequestWithRetry operation {} = (.error e, 1)) ∧
    (e.status = some 503 → apiRequestWithRetry operation {} = (.error e, 3)) := by
  constructor
  · intro h429 hfetch
    have hnr : isRetryableError e defaultRetryableStatusCodes = false := by
      unfold isRetryableError
      rw [hfetch]
      simp [hstat, h429]
    simp [apiRequestWithRetry, retryLoop, hop, hnr]
  · intro h503
    have hr : isRetryableError e defaultRetryableStatusCodes = true := by
      unfold isRetryableError
      rcases hfetch : e.isTypeError && containsSubstrChars "fetch".toList e.message.toList with _ | _ <;>
        simp [hfetch, hstat, h503, defaultRetryableStatusCodes]
    simp [apiRequestWithRetry, retryLoop, hop, hr]

/-- C2 witness: the amended counts evaluated on operations rejecting with a
plain `Error` carrying status 429 and status 503 respectively. -/
theorem claim2_retry_counts_witness :
    apiRequestWithRetry
        (fun _ => (.error { hasStatus := true, status := some 429 } : Except JsError Unit)) {} =
      (.error { hasStatus := true, status := some 429 }, 1) ∧
    apiRequestWithRetry
        (fun _ => (.error { hasStatus := true, status := some 503 } : Except JsError Unit)) {} =
      (.error { hasStatus := true, status := some 503 }, 3) :=
  ⟨(claim2_retry_counts_amended _ _ (fun _ => rfl) rfl).1 rfl (by decide),
    (claim2_retry_counts_amended _ _ (fun _ => rfl) rfl).2 rfl⟩

/-! ## C10 — the price-range derivation -/

/-- A left fold of `min` lands on an element of the seed-and-list. -/
lemma foldl_min_mem {α : Type} [LinearOrder α] (rest : List α) (p : α) :
    rest.foldl min p ∈ p :: rest := by
  induction rest generalizing p with
  | nil => simp
  | cons a t ih =>
    rw [List.foldl_cons]
    rcases List.mem_cons.mp (ih (min p a)) with h2 | h2
    · rcases min_choice p a with h' | h' <;> rw [h2, h'] <;> simp
    · simp [h2]

/-- A left fold of `min` is bounded by its seed. -/
lemma foldl_min_le_seed {α : Type} [LinearOrder α] (rest : List α) (p : α) :
    rest.foldl min p ≤ p := by
  induction rest generalizing p with
  | nil => simp
  | cons a t ih =>
    rw [List.foldl_cons]
    exact le_trans (ih (min p a)) (min_le_left p a)

/-- A left fold of `min` is a lower bound of the seed-and-list. -/
lemma foldl_min_le {α : Type} [LinearOrder α] (rest : List α) (p x : α)
    (hx : x ∈ p :: rest) : rest.foldl min p ≤ x := by
  induction rest generalizing p with
  | nil =>
    simp only [List.not_mem_nil, or_false, List.mem_singleton] at hx
    simp [hx]
  | cons a t ih =>
    rw [List.foldl_cons]
    rcases List.mem_cons.mp hx with h | h
    · rw [h]
      exact le_trans (foldl_min_le_seed t (min p a)) (min_le_left p a)
    · rcases List.mem_cons.mp h with h2 | h2
      · rw [h2]
        exact le_trans (foldl_min_le_seed t (min p a)) (min_le_right p a)
      · exact ih (min p a) (List.mem_cons_of_mem _ h2)

/-- A left fold of `max` lands on an element of the seed-and-list. -/
lemma foldl_max_mem {α : Type} [LinearOrder α] (rest : List α) (p : α) :
    rest.foldl max p ∈ p :: rest := by
  induction rest generalizing p with
  | nil => simp
  | cons a t ih =>
    rw [List.foldl_cons]
    rcases List.mem_cons.mp (ih (max p a)) with h2 | h2
    · rcases max_choice p a with h' | h' <;> rw [h2, h'] <;> simp
    · simp [h2]

/-- A left fold of `max` dominates its seed. -/
lemma seed_le_foldl_max {α : Type} [LinearOrder α] (rest : List α) (p : α) :
    p ≤ rest.foldl max p := by
  induction rest generalizing p with
  | nil => simp
  | cons a t ih =>
    rw [List.foldl_cons]
    exact le_trans (le_max_left p a) (ih (max p a))

/-- A left fold of `max` is an upper bound of the seed-and-list. -/
lemma le_foldl_max {α : Type} [LinearOrder α] (rest : List α) (p x : α)
    (hx : x ∈ p :: rest) : x ≤ rest.foldl max p := by
  induction rest generalizing p with
  | nil =>
    simp only [List.not_mem_nil, or_false, List.mem_singleton] at hx
    simp [hx]
  | cons a t ih =>
    rw [List.foldl_cons]
    rcases List.mem_cons.mp hx with h | h
    · rw [h]
      exact le_trans (le_max_left p a) (seed_le_foldl_max t (max p a))
    · rcases List.mem_cons.mp h with h2 | h2
      · rw [h2]
        exact le_trans (le_max_right p a) (seed_le_foldl_max t (max p a))
      · exact ih (max p a) (List.mem_cons_of_mem _ h2)

/-- C10: `calculatePriceRange` depends only on the strictly positive
prices — with none present (including the empty list) it returns
`{min: 0, max: 10000}`; otherwise `min` is the least positive price rounded
down to the nearest 100 (clamped at 0) and `max` is the greatest positive
price rounded up to the nearest 100; in particular `[120, 455, 999]` yields
`{min: 100, max: 1000}`. -/
theorem claim10_calculatePriceRange_spec (l : List ℚ) :
    ((∀ p ∈ l, ¬ 0 < p) → calculatePriceRange l = { min := 0, max := 10000 }) ∧
    (∀ q ∈ l, 0 < q → (∀ p ∈ l, 0 < p → q ≤ p) →
      (calculatePriceRange l).min = max 0 ((⌊q / 100⌋ * 100 : ℤ) : ℚ)) ∧
    (∀ q ∈ l, 0 < q → (∀ p ∈ l, 0 < p → p ≤ q) →
      (calculatePriceRange l).max = ((⌈q / 100⌉ * 100 : ℤ) : ℚ)) ∧
    calculatePriceRange [120, 455, 999] = { min := 100, max := 1000 } := by
  refine ⟨?_, ?_, ?_, ?_⟩
  · intro h
    have hfil : l.filter (fun p => decide (0 < p)) = [] := by
      rw [List.filter_eq_nil_iff]
      intro a ha
      simpa using h a ha
    simp [calculatePriceRange, hfil]
  · intro q hq hqpos hqle
    have hqf : q ∈ l.filter (fun p => decide (0 < p)) :=
      List.mem_filter.mpr ⟨hq, by simpa using hqpos⟩
    cases hfil : l.filter (fun p => decide (0 < p)) with
    | nil => rw [hfil] at hqf; simp at hqf
    | cons p rest =>
      have hmem : rest.foldl min p ∈ l.filter (fun p => decide (0 < p)) := by
        rw [hfil]; exact foldl_min_mem rest p
      obtain ⟨hfl, hfpos⟩ := List.mem_filter.mp hmem
      have h1 : q ≤ rest.foldl min p := hqle _ hfl (by simpa using hfpos)
      have h2 : rest.foldl min p ≤ q := foldl_min_le rest p q (hfil ▸ hqf)
      have hfold : rest.foldl min p = q := le_antisymm h2 h1
      simp [calculatePriceRange, hfil, hfold]
  · intro q hq hqpos hqle
    have hqf : q ∈ l.filter (fun p => decide (0 < p)) :=
      List.mem_filter.mpr ⟨hq, by simpa using hqpos⟩
    cases hfil : l.filter (fun p => decide (0 < p)) with
    | nil => rw [hfil] at hqf; simp at hqf
    | cons p rest =>
      have hmem : rest.foldl max p ∈ l.filter (fun p => decide (0 < p)) := by
        rw [hfil]; exact foldl_max_mem rest p
      obtain ⟨hfl, hfpos⟩ := List.mem_filter.mp hmem
      have h1 : rest.foldl max p ≤ q := hqle _ hfl (by simpa using hfpos)
      have h2 : q ≤ rest.foldl max p := le_foldl_max rest p q (hfil ▸ hqf)
      have hfold : rest.foldl max p = q := le_antisymm h1 h2
      simp [calculatePriceRange, hfil, hfold]
  · have hceil : (⌈(999 : ℚ) / 100⌉ : ℤ) = 10 := Int.ceil_eq_iff.mpr (by norm_num)
    have hfloor : (⌊(120 : ℚ) / 100⌋ : ℤ) = 1 := by norm_num
    have hmin : ([455, 999] : List ℚ).foldl min 120 = 120 := by
      norm_num [List.foldl, min_def]
    have hmax : ([455, 999] : List ℚ).foldl max 120 = 999 := by
      norm_num [List.foldl, max_def]
    have hfil : ([120, 455, 999] : List ℚ).filter (fun p => decide (0 < p)) =
        [120, 455, 999] := by
      rw [List.filter_eq_self]
      intro a ha
      fin_cases ha <;> norm_num
    simp only [calculatePriceRange, hfil, hmin, hmax, hceil, hfloor]
    norm_num

/-- C10 witness: the characterization applied to the concrete price list
`[120, 455, 999]` with least positive price 120 and greatest 999. -/
theorem claim10_calculatePriceRange_spec_witness :
    (calculatePriceRange [120, 455, 999]).min =
      max 0 ((⌊(120 : ℚ) / 100⌋ * 100 : ℤ) : ℚ) ∧
    (calculatePriceRange [120, 455, 999]).max = ((⌈(999 : ℚ) / 100⌉ * 100 : ℤ) : ℚ) ∧
    calculatePriceRange [] = { min := 0, max := 10000 } :=
  ⟨(claim10_calculatePriceRange_spec [120, 455, 999]).2.1 120 (by norm_num)
      (by norm_num) (by intro p hp hppos; fin_cases hp <;> norm_num),
    (claim10_calculatePriceRange_spec [120, 455, 999]).2.2.1 999 (by norm_num)
      (by norm_num) (by intro p hp hppos; fin_cases hp <;> norm_num),
    (claim10_calculatePriceRange_spec []).1 (by simp)⟩

/-! ## C1 — the normalizer's price/stops invariant -/

/-- A raw record carrying an explicit negative price and negative stop
count. -/
def negativeRawFlight : RawFlightData :=
  { price := some (.num (-50)), stops := some (-1) }

/-- C1 counterexample: the raw record with `price = -50` and `stops = -1`
normalizes to a flight with `price = -50 < 0` and `stops = -1 < 0`, refuting
the claim that every normalized flight satisfies `price >= 0` and
`stops >= 0`. -/
theorem claim1_normalizer_nonneg_counterexample :
    (normalizeFlightObject negativeRawFlight {} 0).price = some (-50) ∧
    (normalizeFlightObject negativeRawFlight {} 0).stops = -1 ∧
    (normalizeFlightObject negativeRawFlight {} 0).stops < 0 := by
  refine ⟨?_, rfl, by decide⟩
  show jsParseFloatOfVal (selectPriceVal negativeRawFlight) = some (-50)
  norm_num [selectPriceVal, negativeRawFlight, jsOrPrice, jsPriceTruthy,
    jsParseFloatOfVal]

/-- C1 (amended): the normalized `stops` is nonnegative provided any
explicit raw `stops` value is nonnegative (the `segments.length - 1`
fallback is clamped at 0 and the default is 0), and the normalized `price`
is nonnegative provided the selected raw price value parses to a
nonnegative number; a raw record carrying a negative `stops` or a
negative-parsing price value passes it through unchanged. -/
theorem claim1_normalizer_nonneg_amended (flightData : RawFlightData)
    (options : NormalizeOptions) (now : Nat)
    (hstops : ∀ s, flightData.stops = some s → 0 ≤ s)
    (hprice : ∀ q, jsParseFloatOfVal (selectPriceVal flightData) = some q → 0 ≤ q) :
    0 ≤ (normalizeFlightObject flightData options now).stops ∧
    ∀ q, (normalizeFlightObject flightData options now).price = some q → 0 ≤ q := by
  have hstopsEq : (normalizeFlightObject flightData options now).stops =
      (match flightData.stops with
        | some s => s
        | none =>
          match flightData.segments with
          | some segments => max 0 ((segments.length : Int) - 1)
          | none => 0 : Int) := rfl
  constructor
  · rw [hstopsEq]
    cases hs : flightData.stops with
    | some s => exact hstops s hs
    | none =>
      cases flightData.segments with
      | some segments => exact le_max_left 0 _
      | none => exact le_refl 0
  · intro q hq
    exact hprice q hq

/-- C1 witness: the amended invariant evaluated on a raw record with an
explicit nonnegative stop count and a nonnegative numeric price. -/
theorem claim1_normalizer_nonneg_amended_witness :
    0 ≤ (normalizeFlightObject { stops := some 2, price := some (.num 5) } {} 0).stops ∧
    ∀ q, (normalizeFlightObject { stops := some 2, price := some (.num 5) } {} 0).price =
      some q → 0 ≤ q :=
  claim1_normalizer_nonneg_amended { stops := some 2, price := some (.num 5) } {} 0
    (fun s hs => by
      rw [show ({ stops := some 2, price := some (.num 5) } : RawFlightData).stops =
        some 2 from rfl] at hs
      cases hs
      norm_num)
    (fun q hq => by
      rw [show jsParseFloatOfVal (selectPriceVal
          { stops := some 2, price := some (.num 5) }) = some 5 by
        norm_num [selectPriceVal, jsOrPrice, jsPriceTruthy, jsParseFloatOfVal]] at hq
      cases hq
      norm_num)

/-! ## C8 — duration back-fill across midnight -/

/-- The back-fill computation on the concrete clock pair `22:00` / `02:00`:
1320 departure minutes, 120 arrival minutes, wrapped by +24h to 240 minutes,
rendered `"4h 0m"`. -/
lemma formatBackfillDuration_2200_0200 :
    formatBackfillDuration "22:00" "02:00" = "4h 0m" := by
  have hs1 : (jsSplit "22:00" ':').map jsNumber = [jsNumber "22", jsNumber "00"] := by
    decide
  have hs2 : (jsSplit "02:00" ':').map jsNumber = [jsNumber "02", jsNumber "00"] := by
    decide
  have h22 : jsNumber "22" = some 22 := by decide
  have h02 : jsNumber "02" = some 2 := by decide
  have h00 : jsNumber "00" = some 0 := by decide
  have hwrap : ((2 : ℚ) * 60 + 0) - (22 * 60 + 0) < 0 := by norm_num
  have hfloor : (⌊(((2 : ℚ) * 60 + 0) - (22 * 60 + 0) + 24 * 60) / 60⌋ : ℤ) = 4 := by
    norm_num
  have hrem : jsRem (((2 : ℚ) * 60 + 0) - (22 * 60 + 0) + 24 * 60) 60 = 0 := by
    norm_num [jsRem, ratTrunc]
  simp only [formatBackfillDuration, hs1, hs2, h22, h02, h00]
  simp only [List.get?, Option.getD_some]
  rw [if_pos hwrap, hfloor, hrem]
  decide

/-- C8: every raw flight record whose `departureTime` is `"22:00"` and
`arrivalTime` is `"02:00"`, with no duration supplied under any of the
fallback names (`duration`, `totalDuration`, `journey.duration`, `time`),
normalizes — for every options argument — to `duration = "4h 0m"`, wrapping
past midnight by adding 24 hours. -/
theorem claim8_duration_backfill_midnight (flightData : RawFlightData)
    (options : NormalizeOptions) (now : Nat)
    (hdep : flightData.departureTime = some "22:00")
    (harr : flightData.arrivalTime = some "02:00")
    (hd1 : flightData.duration = none)
    (hd2 : flightData.totalDuration = none)
    (hd3 : flightData.journey.bind (fun j => j.duration) = none)
    (hd4 : flightData.time = none) :
    (normalizeFlightObject flightData options now).duration = "4h 0m" := by
  have hproj : (normalizeFlightObject flightData options now).duration =
      resolvedDuration flightData := rfl
  have hrd : resolvedRawDuration flightData = "" := by
    simp [resolvedRawDuration, hd1, hd2, hd3, hd4, jsOrStr]
  have hdt : resolvedDepartureTime flightData = "22:00" := by
    simp [resolvedDepartureTime, hdep, jsOrStr]
  have hat : resolvedArrivalTime flightData = "02:00" := by
    simp [resolvedArrivalTime, harr, jsOrStr]
  rw [hproj, resolvedDuration]
  simp only [hrd, hdt, hat]
  rw [if_pos (by decide)]
  exact formatBackfillDuration_2200_0200

/-- C8 witness: the back-fill evaluated on a concrete raw record carrying
only the two clock times. -/
theorem claim8_duration_backfill_midnight_witness :
    (normalizeFlightObject
      { departureTime := some "22:00", arrivalTime := some "02:00" } {} 0).duration =
      "4h 0m" :=
  claim8_duration_backfill_midnight
    { departureTime := some "22:00", arrivalTime := some "02:00" } {} 0
    rfl rfl rfl rfl rfl rfl

/-! ## C5 — the health prober's cache discipline -/

/-- When the cached-return path does not apply (`skipCache`, no cached
value, or an expired one), `checkApiHealth` runs its uncached body. -/
lemma checkApiHealth_bypass (key : String) (probe : ProbeOutcome) (now : Nat)
    (cache : Option ApiHealthResult) (skipCache : Bool)
    (h : skipCache = true ∨ cache = none ∨
      ∀ cached, cache = some cached → isCacheValid now cached = false) :
    checkApiHealth key probe now cache skipCache =
      checkApiHealthUncached key probe now cache := by
  cases cache with
  | none => rfl
  | some cached =>
    rcases h with h | h | h
    · simp [checkApiHealth, h]
    · exact absurd h (by simp)
    · simp [checkApiHealth, h cached rfl]

/-- With a usable key, the uncached body always issues the probe. -/
lemma checkApiHealthUncached_probed (key : String) (probe : ProbeOutcome)
    (now : Nat) (cache : Option ApiHealthResult) (hk : jsTrim key ≠ "") :
    (checkApiHealthUncached key probe now cache).probed = true := by
  have hkeyne : key ≠ "" := by
    intro h
    rw [h] at hk
    exact hk rfl
  cases probe with
  | success => simp [checkApiHealthUncached, hk, hkeyne]
  | httpError status =>
    by_cases hs : status = 429 <;> simp [checkApiHealthUncached, hk, hkeyne, hs]
  | networkError => simp [checkApiHealthUncached, hk, hkeyne]

/-- C5: the single cache slot's discipline.  A valid cached result with
`skipCache = false` is returned unchanged without probing and without
touching the slot; whenever the cached path does not apply, each outcome —
no API key (after trimming), a 2xx probe, a non-2xx non-429 probe, a network
error — overwrites the slot with the returned result, while an HTTP 429
probe returns `{status: offline, usingMockData: true}` but leaves the slot
exactly as it was, so a subsequent call with the slot still empty probes
afresh. -/
theorem claim5_health_cache_discipline (key : String) (probe : ProbeOutcome)
    (now : Nat) (cache : Option ApiHealthResult) (skipCache : Bool) :
    (∀ cached, cache = some cached → skipCache = false →
      isCacheValid now cached = true →
      checkApiHealth key probe now cache skipCache =
        { result := cached, cache := cache, probed := false }) ∧
    ((skipCache = true ∨ cache = none ∨
        ∀ cached, cache = some cached → isCacheValid now cached = false) →
      (jsTrim key = "" →
        (checkApiHealth key probe now cache skipCache).cache =
          some (checkApiHealth key probe now cache skipCache).result ∧
        (checkApiHealth key probe now cache skipCache).probed = false ∧
        (checkApiHealth key probe now cache skipCache).result.status = .mock ∧
        (checkApiHealth key probe now cache skipCache).result.apiKeyConfigured = false) ∧
      (jsTrim key ≠ "" → probe = .success →
        (checkApiHealth key probe now cache skipCache).cache =
          some (checkApiHealth key probe now cache skipCache).result ∧
        (checkApiHealth key probe now cache skipCache).probed = true) ∧
      (jsTrim key ≠ "" → ∀ status, probe = .httpError status → status ≠ 429 →
        (checkApiHealth key probe now cache skipCache).cache =
          some (checkApiHealth key probe now cache skipCache).result ∧
        (checkApiHealth key probe now cache skipCache).probed = true) ∧
      (jsTrim key ≠ "" → probe = .networkError →
        (checkApiHealth key probe now cache skipCache).cache =
          some (checkApiHealth key probe now cache skipCache).result ∧
        (checkApiHealth key probe now cache skipCache).probed = true) ∧
      (jsTrim key ≠ "" → probe = .httpError 429 →
        (checkApiHealth key probe now cache skipCache).result.status = .offline ∧
        (checkApiHealth key probe now cache skipCache).result.usingMockData = true ∧
        (checkApiHealth key probe now cache skipCache).cache = cache ∧
        (checkApiHealth key probe now cache skipCache).probed = true ∧
        (cache = none → ∀ probe2 now2,
          (checkApiHealth key probe2 now2
            (checkApiHealth key probe now cache skipCache).cache false).probed =
            true))) := by
  constructor
  · intro cached hc hskip hvalid
    subst hc hskip
    simp [checkApiHealth, hvalid]
  · intro hbypass
    rw [checkApiHealth_bypass key probe now cache skipCache hbypass]
    refine ⟨?_, ?_, ?_, ?_, ?_⟩
    · intro hk
      simp [checkApiHealthUncached, hk]
    · intro hk hpr
      subst hpr
      have hkeyne : key ≠ "" := by
        intro h
        rw [h] at hk
        exact hk rfl
      simp [checkApiHealthUncached, hk, hkeyne]
    · intro hk status hpr hs
      subst hpr
      have hkeyne : key ≠ "" := by
        intro h
        rw [h] at hk
        exact hk rfl
      simp [checkApiHealthUncached, hk, hkeyne, hs]
    · intro hk hpr
      subst hpr
      have hkeyne : key ≠ "" := by
        intro h
        rw [h] at hk
        exact hk rfl
      simp [checkApiHealthUncached, hk, hkeyne]
    · intro hk hpr
      subst hpr
      have hkeyne : key ≠ "" := by
        intro h
        rw [h] at hk
        exact hk rfl
      refine ⟨?_, ?_, ?_, ?_, ?_⟩ <;>
        (simp only [checkApiHealthUncached];
          rw [if_neg (by simp [hk, hkeyne])];
          simp only [if_true];
          try rfl)
      intro hnone probe2 now2
      rw [hnone]
      show (checkApiHealthUncached key probe2 now2 none).probed = true
      exact checkApiHealthUncached_probed key probe2 now2 none hk

/-- A sample cached health result, 500ms old at probe time 1000. -/
def sampleCachedHealth : ApiHealthResult :=
  { status := .online
    message := "Connected to RapidAPI"
    timestamp := 500
    usingMockData := false
    apiKeyConfigured := true }

/-- C5 witness: the discipline evaluated on a valid cached slot, a 429
probe with an empty slot, and a 2xx probe with an empty slot. -/
theorem claim5_health_cache_discipline_witness :
    checkApiHealth "rapid-key" .networkError 1000 (some sampleCachedHealth) false =
      { result := sampleCachedHealth, cache := some sampleCachedHealth,
        probed := false } ∧
    (checkApiHealth "rapid-key" (.httpError 429) 1000 none false).result.status =
      ApiConnectionStatus.offline ∧
    (checkApiHealth "rapid-key" (.httpError 429) 1000 none false).cache = none ∧
    (checkApiHealth "rapid-key" .success 1000 none false).cache =
      some (checkApiHealth "rapid-key" .success 1000 none false).result := by
  refine ⟨?_, ?_, ?_, ?_⟩
  · exact (claim5_health_cache_discipline "rapid-key" .networkError 1000
      (some sampleCachedHealth) false).1 sampleCachedHealth rfl rfl (by decide)
  · exact (((claim5_health_cache_discipline "rapid-key" (.httpError 429) 1000
      none false).2 (Or.inr (Or.inl rfl))).2.2.2.2 (by decide) rfl).1
  · exact (((claim5_health_cache_discipline "rapid-key" (.httpError 429) 1000
      none false).2 (Or.inr (Or.inl rfl))).2.2.2.2 (by decide) rfl).2.2.1
  · exact (((claim5_health_cache_discipline "rapid-key" .success 1000
      none false).2 (Or.inr (Or.inl rfl))).2.1 (by decide) rfl).1

/-! ## Order-theoretic facts about the three sort comparators -/

/-- `cmp(a,b) <= 0` for the `'cheapest'` comparator is price order. -/
lemma cmpLe_cheapestCmp_iff (a b : Flight) :
    cmpLe cheapestCmp a b ↔ a.price ≤ b.price := by
  unfold cmpLe cheapestCmp
  exact sub_nonpos

/-- `cmp(a,b) <= 0` for the `'fastest'` comparator is parsed-duration
order. -/
lemma cmpLe_fastestCmp_iff (a b : Flight) :
    cmpLe fastestCmp a b ↔ parseDuration a.duration ≤ parseDuration b.duration := by
  unfold cmpLe fastestCmp
  rw [sub_nonpos]
  exact_mod_cast Iff.rfl

/-- Position of a flight in the best-first tier: 0 when flagged best. -/
def bestRank (f : Flight) : Nat := if f.best then 0 else 1

/-- Position of a flight in the non-stop-first tier: 0 when non-stop. -/
def stopsRank (f : Flight) : Nat := if f.stops = 0 then 0 else 1

/-- `cmp(a,b) <= 0` for the `'best'` comparator is the lexicographic order
on `(best tier, non-stop tier, price)`. -/
lemma cmpLe_bestCmp_iff (a b : Flight) :
    cmpLe bestCmp a b ↔
      (bestRank a < bestRank b ∨ (bestRank a = bestRank b ∧
        (stopsRank a < stopsRank b ∨
          (stopsRank a = stopsRank b ∧ a.price ≤ b.price)))) := by
  unfold cmpLe bestCmp bestRank stopsRank
  rcases ha : a.best <;> rcases hb : b.best <;>
    by_cases has : a.stops = 0 <;> by_cases hbs : b.stops = 0 <;>
      simp [ha, hb, has, hbs, Nat.pos_of_ne_zero, sub_nonpos,
        Nat.pos_iff_ne_zero]

/-- The `'best'` comparator key, packaged in a lexicographic product. -/
def bestKey (f : Flight) : Lex (Nat × Lex (Nat × ℚ)) :=
  toLex (bestRank f, toLex (stopsRank f, f.price))

/-- The lexicographic-product order on keys coincides with the unfolded
description. -/
lemma bestKey_le_iff (a b : Flight) :
    bestKey a ≤ bestKey b ↔
      (bestRank a < bestRank b ∨ (bestRank a = bestRank b ∧
        (stopsRank a < stopsRank b ∨
          (stopsRank a = stopsRank b ∧ a.price ≤ b.price)))) := by
  unfold bestKey
  rw [Prod.Lex.le_iff]
  constructor
  · rintro (h | ⟨e, h⟩)
    · exact Or.inl h
    · rw [Prod.Lex.le_iff] at h
      exact Or.inr ⟨e, h⟩
  · rintro (h | ⟨e, h⟩)
    · exact Or.inl h
    · exact Or.inr ⟨e, (Prod.Lex.le_iff _ _).mpr h⟩

/-- `cmp(a,b) <= 0` for the `'best'` comparator, as the key order. -/
lemma cmpLe_bestCmp_iff_key (a b : Flight) :
    cmpLe bestCmp a b ↔ bestKey a ≤ bestKey b :=
  (cmpLe_bestCmp_iff a b).trans (bestKey_le_iff a b).symm

instance : IsTrans Flight (cmpLe cheapestCmp) :=
  ⟨fun a b c hab hbc => by
    rw [cmpLe_cheapestCmp_iff] at *
    exact le_trans hab hbc⟩

instance : IsTotal Flight (cmpLe cheapestCmp) :=
  ⟨fun a b => by
    rw [cmpLe_cheapestCmp_iff, cmpLe_cheapestCmp_iff]
    exact le_total _ _⟩

instance : IsTrans Flight (cmpLe fastestCmp) :=
  ⟨fun a b c hab hbc => by
    rw [cmpLe_fastestCmp_iff] at *
    exact le_trans hab hbc⟩

instance : IsTotal Flight (cmpLe fastestCmp) :=
  ⟨fun a b => by
    rw [cmpLe_fastestCmp_iff, cmpLe_fastestCmp_iff]
    exact le_total _ _⟩

instance : IsTrans Flight (cmpLe bestCmp) :=
  ⟨fun a b c hab hbc => by
    rw [cmpLe_bestCmp_iff_key] at *
    exact le_trans hab hbc⟩

instance : IsTotal Flight (cmpLe bestCmp) :=
  ⟨fun a b => by
    rw [cmpLe_bestCmp_iff_key, cmpLe_bestCmp_iff_key]
    exact le_total _ _⟩

/-! ## C4 — the default "best" sort order -/

/-- Modelled from the spec's words (for comparison with the code's
comparator): the claimed lexicographic total order on
`(best-flag, stop-count, price)` — best before non-best, then lower stop
count before higher, then ascending price. -/
def specBestLe (a b : Flight) : Prop :=
  bestRank a < bestRank b ∨ (bestRank a = bestRank b ∧
    (a.stops < b.stops ∨ (a.stops = b.stops ∧ a.price ≤ b.price)))

instance : DecidableRel specBestLe := fun a b => by
  unfold specBestLe
  infer_instance

/-- A one-stop $100 flight. -/
def oneStopFlight : Flight := { stops := 1, price := 100 }

/-- A two-stop $50 flight. -/
def twoStopFlight : Flight := { stops := 2, price := 50 }

/-- Filtering with the default filters keeps both sample flights. -/
lemma applyFilters_sample :
    applyFilters [oneStopFlight, twoStopFlight] defaultFilters =
      [oneStopFlight, twoStopFlight] := by
  simp only [applyFilters, defaultFilters]
  norm_num [oneStopFlight, twoStopFlight, List.filter]

/-- C4 counterexample: under the default `'best'` sort, the engine places
the two-stop $50 flight before the one-stop $100 flight (price decides
between two 1+-stop flights), although the claimed lexicographic order on
`(best-flag, stop-count, price)` puts the one-stop flight strictly first. -/
theorem claim4_best_sort_counterexample :
    getFilteredFlights [oneStopFlight, twoStopFlight] defaultFilters .best =
      [twoStopFlight, oneStopFlight] ∧
    specBestLe oneStopFlight twoStopFlight ∧
    ¬ specBestLe twoStopFlight oneStopFlight := by
  refine ⟨?_, ?_, ?_⟩
  · show (if ([oneStopFlight, twoStopFlight] : List Flight).length = 0 then []
      else (applyFilters [oneStopFlight, twoStopFlight]
        defaultFilters).insertionSort (cmpLe bestCmp)) = _
    rw [if_neg (by simp), applyFilters_sample]
    show List.orderedInsert _ oneStopFlight
      (List.orderedInsert _ twoStopFlight []) = _
    simp only [List.orderedInsert]
    rw [if_neg]
    norm_num [cmpLe, bestCmp, oneStopFlight, twoStopFlight]
  · unfold specBestLe bestRank oneStopFlight twoStopFlight
    norm_num
  · unfold specBestLe bestRank twoStopFlight oneStopFlight
    norm_num

/-- C4 (amended): under the default `'best'` sort the engine orders the
filtered flights by the lexicographic total order on
`(best-flag, 0-stops-versus-1+-stops, price)` — best first, then non-stop
before 1+ stops (stop counts beyond that tie rather than ordering), then
ascending price — and the result is a stable permutation of the filtered
list: every pair already in comparator order in the filtered list keeps its
relative order. -/
theorem claim4_best_sort_amended (flights : List Flight)
    (filters : FlightFilters) :
    List.Sorted (cmpLe bestCmp) (getFilteredFlights flights filters .best) ∧
    (getFilteredFlights flights filters .best).Perm
      (applyFilters flights filters) ∧
    (∀ a b, cmpLe bestCmp a b → [a, b].Sublist (applyFilters flights filters) →
      [a, b].Sublist (getFilteredFlights flights filters .best)) := by
  by_cases hfl : flights.length = 0
  · have hnil : flights = [] := List.length_eq_zero.mp hfl
    subst hnil
    have hap : applyFilters [] filters = [] := by
      simp [applyFilters]
    refine ⟨?_, ?_, ?_⟩
    · simp [getFilteredFlights]
    · simp [getFilteredFlights, hap]
    · intro a b hr hsub
      rw [hap] at hsub
      simp at hsub
  · have hout : getFilteredFlights flights filters .best =
        (applyFilters flights filters).insertionSort (cmpLe bestCmp) := by
      simp [getFilteredFlights, hfl]
    refine ⟨?_, ?_, ?_⟩
    · rw [hout]
      exact List.sorted_insertionSort (cmpLe bestCmp) _
    · rw [hout]
      exact List.perm_insertionSort (cmpLe bestCmp) _
    · intro a b hr hsub
      rw [hout]
      exact List.pair_sublist_insertionSort hr hsub

/-- Two tied flights (same tiers and price) distinguished by id. -/
def tieFlightA : Flight := { id := "A", stops := 1, price := 50 }

/-- Second of the two tied flights. -/
def tieFlightB : Flight := { id := "B", stops := 1, price := 50 }

/-- Filtering with the default filters keeps both tied flights. -/
lemma applyFilters_tie :
    applyFilters [tieFlightA, tieFlightB] defaultFilters =
      [tieFlightA, tieFlightB] := by
  simp only [applyFilters, defaultFilters]
  norm_num [tieFlightA, tieFlightB, List.filter]

/-- C4 witness: the amended ordering facts — sortedness on the two sample
flights, and stability on a tied pair, which keeps its original relative
order in the output. -/
theorem claim4_best_sort_amended_witness :
    List.Sorted (cmpLe bestCmp)
      (getFilteredFlights [oneStopFlight, twoStopFlight] defaultFilters .best) ∧
    [tieFlightA, tieFlightB].Sublist
      (getFilteredFlights [tieFlightA, tieFlightB] defaultFilters .best) := by
  constructor
  · exact (claim4_best_sort_amended [oneStopFlight, twoStopFlight] defaultFilters).1
  · exact (claim4_best_sort_amended [tieFlightA, tieFlightB] defaultFilters).2.2
      tieFlightA tieFlightB
      (by norm_num [cmpLe, bestCmp, tieFlightA, tieFlightB])
      (by rw [applyFilters_tie])

/-! ## C9 — idempotence of the filter/sort derivation -/

/-- The conjunction of all six filter passes as one predicate (a pass whose
filter set is empty, or a zero duration cap, is vacuously true). -/
def keepFlight (filters : FlightFilters) (flight : Flight) : Bool :=
  (decide (filters.priceRange.min ≤ flight.price) &&
    decide (flight.price ≤ filters.priceRange.max)) &&
  (if filters.stops.length > 0 then filters.stops.contains flight.stops
    else true) &&
  (if filters.airlines.length > 0 then filters.airlines.contains flight.airline
    else true) &&
  (if filters.departureTimes.length > 0 then
    timeFilterMatches filters.departureTimes flight.departureTime else true) &&
  (if filters.arrivalTimes.length > 0 then
    timeFilterMatches filters.arrivalTimes flight.arrivalTime else true) &&
  (if filters.duration > 0 then
    decide (parseDuration flight.duration ≤ filters.duration) else true)

/-- A conditional filter pass is an unconditional filter by a conditional
predicate. -/
lemma stage_filter {α : Type} (c : Prop) [Decidable c] (p : α → Bool)
    (l : List α) :
    (if c then l.filter p else l) =
      l.filter (fun x => if c then p x else true) := by
  split_ifs <;> simp

/-- The six sequential filter passes equal one filter by the conjoined
predicate. -/
lemma applyFilters_eq_filter (flights : List Flight) (filters : FlightFilters) :
    applyFilters flights filters = flights.filter (keepFlight filters) := by
  simp only [applyFilters]
  simp only [stage_filter]
  simp only [List.filter_filter]
  apply List.filter_congr
  intro x hx
  rw [Bool.eq_iff_iff]
  simp only [keepFlight, Bool.and_eq_true]
  tauto

/-- Sorting the filtered list, filtering again and re-sorting is the
identity: the elements still satisfy every pass, and a sorted list is a
fixed point of the sort. -/
lemma applyFilters_insertionSort_idem (filters : FlightFilters)
    (cmp : Flight → Flight → ℚ) [IsTotal Flight (cmpLe cmp)]
    [IsTrans Flight (cmpLe cmp)] (flights : List Flight) :
    (applyFilters ((applyFilters flights filters).insertionSort (cmpLe cmp))
        filters).insertionSort (cmpLe cmp) =
      (applyFilters flights filters).insertionSort (cmpLe cmp) := by
  have hmem : ∀ x ∈ (applyFilters flights filters).insertionSort (cmpLe cmp),
      keepFlight filters x = true := by
    intro x hx
    have hx2 : x ∈ applyFilters flights filters :=
      (List.perm_insertionSort (cmpLe cmp) _).mem_iff.mp hx
    rw [applyFilters_eq_filter] at hx2
    exact (List.mem_filter.mp hx2).2
  have happ : applyFilters
      ((applyFilters flights filters).insertionSort (cmpLe cmp)) filters =
      (applyFilters flights filters).insertionSort (cmpLe cmp) := by
    rw [applyFilters_eq_filter]
    exact List.filter_eq_self.mpr hmem
  rw [happ]
  exact List.Sorted.insertionSort_eq (List.sorted_insertionSort _ _)

/-- Idempotence for any function that agrees with the
filter-then-stable-sort pipeline. -/
lemma filter_sort_pipeline_idem (filters : FlightFilters)
    (cmp : Flight → Flight → ℚ) [IsTotal Flight (cmpLe cmp)]
    [IsTrans Flight (cmpLe cmp)] (flights : List Flight)
    (F : List Flight → List Flight)
    (hF : ∀ l, F l = if l.length = 0 then []
      else (applyFilters l filters).insertionSort (cmpLe cmp)) :
    F (F flights) = F flights := by
  by_cases h : flights.length = 0
  · rw [hF flights, if_pos h, hF []]
    simp
  · rw [hF flights, if_neg h, hF ((applyFilters flights
      filters).insertionSort (cmpLe cmp))]
    by_cases ho : ((applyFilters flights filters).insertionSort
        (cmpLe cmp)).length = 0
    · rw [if_pos ho]
      exact (List.length_eq_zero.mp ho).symm
    · rw [if_neg ho]
      exact applyFilters_insertionSort_idem filters cmp flights

/-- C9: the Filter/Sort Engine is idempotent — for every flight list,
filter state and sort option, applying the derivation to its own output
with the same filters and sort option returns the identical ordered list
(the derivation is a pure function of its three inputs; the embedding makes
this structural). -/
theorem claim9_filter_sort_idempotent (flights : List Flight)
    (filters : FlightFilters) (sortOption : SortOption) :
    getFilteredFlights (getFilteredFlights flights filters sortOption) filters
      sortOption = getFilteredFlights flights filters sortOption := by
  cases sortOption with
  | best =>
    exact filter_sort_pipeline_idem filters bestCmp flights
      (getFilteredFlights · filters .best) (fun l => rfl)
  | cheapest =>
    exact filter_sort_pipeline_idem filters cheapestCmp flights
      (getFilteredFlights · filters .cheapest) (fun l => rfl)
  | fastest =>
    exact filter_sort_pipeline_idem filters fastestCmp flights
      (getFilteredFlights · filters .fastest) (fun l => rfl)
